import Mathlib

/-!
# Verification of the multi-chain intent execution engine

A shallow embedding, in Lean 4, of the portions of the repository that the
specification's testable properties talk about:

* `filterSpamTokens` and its threshold table (auto-withdraw action);
* the compose-flow construction of the MEE rebalance action
  (`buildMultiIntentFlow`, `buildWithdrawalInstruction`);
* the rebalance handler's input validation (weights must sum to 1 ± 0.001);
* `BiconomyService.signPayloads` / `executeIntent` (quote-type dispatch);
* `BiconomyService.getQuote` (HTTP 412 handling);
* the DefiLlama retry loops (`getPoolChart`, `loadIndex`);
* the auto-withdraw orchestration loop (scan phase, spam filter,
  per-chain withdraw phase, aggregate report).

Conventions of the embedding: JavaScript `bigint` values are modelled as `ℤ`,
JavaScript `number` values as `ℚ`, thrown exceptions as `Except String`,
`null`/`undefined` as `Option`, and network / signer effects as explicit
oracle parameters (functions passed into the model).  Effect "logs" (lists of
performed waits or calls) are returned alongside results so that statements
such as "no network call is made" are expressible.
-/

/-! ## JS helpers -/

/-- JS truthiness of an optional string: `undefined`/`null` and `""` are falsy. -/
def jsTruthyStr : Option String → Bool
  | none => false
  | some s => s ≠ ""

/-- `String.prototype.split(",")`: cut at every comma, keeping empty pieces.
`"".split(",")` is `[""]`, as in JS. -/
def splitCommaAux : List Char → List Char → List (List Char)
  | [], acc => [acc.reverse]
  | c :: rest, acc =>
      if c = ',' then acc.reverse :: splitCommaAux rest []
      else splitCommaAux rest (c :: acc)

/-- String form of `splitCommaAux`. -/
def splitComma (s : String) : List String :=
  (splitCommaAux s.data []).map List.asString

/-- `String.prototype.trim()` restricted to the space character (the inputs
of interest never carry other whitespace). -/
def trimSpaces (s : String) : String :=
  ((s.data.dropWhile (· = ' ')).reverse.dropWhile (· = ' ')).reverse.asString

/-! ## Token balances and the spam filter

From `filterSpamTokens` in the auto-withdraw action.  `parseUnits` is viem's
decimal-string scaler; the decimal literal `value` is passed here as a pair
`num / 10 ^ scale` (so `"0.01"` is `parseUnits 1 2`, `"0.0001"` is
`parseUnits 1 4`), and viem's rounding of excess fractional digits is
half-up, which `(num + full / 2) / full` reproduces. -/

/-- viem `parseUnits`: scale the decimal value `num / 10 ^ scale` to an
integer amount of `10 ^ (-decimals)` units, rounding half-up. -/
def parseUnits (num scale decimals : ℕ) : ℤ :=
  if scale ≤ decimals then (num * 10 ^ (decimals - scale) : ℕ)
  else ((num + 10 ^ (scale - decimals) / 2) / 10 ^ (scale - decimals) : ℕ)

/-- The `TokenBalance` record built by the auto-withdraw scanner. -/
structure TokenBalance where
  chainId : ℕ
  chainName : String
  tokenAddress : String
  tokenSymbol : String
  balance : ℤ
  decimals : ℕ
  isNative : Bool
deriving DecidableEq, Repr

/-- The `SPAM_THRESHOLDS` lookup table of `filterSpamTokens` (symbol →
minimum balance in base units). -/
def SPAM_THRESHOLDS (sym : String) : Option ℤ :=
  if sym = "USDC" then some (parseUnits 1 2 6)
  else if sym = "USDT" then some (parseUnits 1 2 6)
  else if sym = "DAI" then some (parseUnits 1 2 18)
  else if sym = "USDC.E" then some (parseUnits 1 2 6)
  else if sym = "USDCE" then some (parseUnits 1 2 6)
  else if sym = "WETH" then some (parseUnits 1 4 18)
  else if sym = "ETH" then some (parseUnits 1 4 18)
  else if sym = "POL" then some (parseUnits 1 2 18)
  else none

/-- Threshold applied to one balance: the table entry for its symbol, or the
default `parseUnits "0.0001" decimals` for unlisted symbols (the table holds
no zero entries, so JS `||` coincides with `getD`). -/
def spamThresholdFor (balance : TokenBalance) : ℤ :=
  (SPAM_THRESHOLDS balance.tokenSymbol).getD (parseUnits 1 4 balance.decimals)

/-- `filterSpamTokens`: keep exactly the balances at or above their threshold. -/
def filterSpamTokens (balances : List TokenBalance) : List TokenBalance :=
  balances.filter (fun balance => !(balance.balance < spamThresholdFor balance))

/-! ### C4, C5: spam-filter properties -/

/-- **C4.** The spam filter is idempotent: filtering an already-filtered
`TokenBalance` list yields the same list. -/
theorem filterSpamTokens_idempotent (balances : List TokenBalance) :
    filterSpamTokens (filterSpamTokens balances) = filterSpamTokens balances := by
  simp [filterSpamTokens, List.filter_filter]

/-- A native POL balance of `0.0005` units (`5 * 10 ^ 14` wei, 18 decimals) as
built by the scanner on Polygon. -/
def polDustBalance : TokenBalance :=
  { chainId := 137, chainName := "polygon",
    tokenAddress := "0xEeeeeEeeeEeEeeEeEeEeeEEEeeeeEeeeeeeeEEeE",
    tokenSymbol := "POL", balance := 500000000000000, decimals := 18,
    isNative := true }

/-- **C5 counterexample.** The claim says every native-token balance of
`0.0005` units (18 decimals) is retained, but the filter keys on the symbol:
native POL uses the `0.01` threshold (`10 ^ 16` wei), so `0.0005` POL —
exactly what the scanner produces for Polygon's native token — is excluded. -/
theorem filterSpamTokens_pol_excluded :
    polDustBalance.isNative = true ∧ polDustBalance.decimals = 18 ∧
    filterSpamTokens [polDustBalance] = [] := by
  decide

/-- **C5 (amended).** For a native 18-decimals balance whose symbol is `ETH`
— or any symbol outside the threshold table, where the `0.0001` default
applies — `0.00005` units are excluded and `0.0005` units retained; for the
native symbol `POL` the threshold is `0.01`, so `0.0005` units are excluded
as well. -/
theorem filterSpamTokens_native_thresholds (b : TokenBalance)
    (hdec : b.decimals = 18) (hnat : b.isNative = true) :
    ((b.tokenSymbol = "ETH" ∨ SPAM_THRESHOLDS b.tokenSymbol = none) →
      (b.balance = 50000000000000 → filterSpamTokens [b] = []) ∧
      (b.balance = 500000000000000 → filterSpamTokens [b] = [b])) ∧
    (b.tokenSymbol = "POL" → b.balance = 500000000000000 →
      filterSpamTokens [b] = []) := by
  constructor
  · rintro (hsym | hnone)
    · constructor <;> intro hbal <;>
        norm_num [filterSpamTokens, spamThresholdFor, SPAM_THRESHOLDS, parseUnits,
          hsym, hbal, hdec] <;> decide
    · constructor <;> intro hbal <;>
        norm_num [filterSpamTokens, spamThresholdFor, hnone, parseUnits, hbal, hdec]
  · intro hsym hbal
    norm_num [filterSpamTokens, spamThresholdFor, SPAM_THRESHOLDS, parseUnits,
      hsym, hbal, hdec] <;> decide

/-- A native ETH balance of `0.00005` units (`5 * 10 ^ 13` wei, 18 decimals). -/
def ethDustBalance : TokenBalance :=
  { chainId := 8453, chainName := "base",
    tokenAddress := "0xEeeeeEeeeEeEeeEeEeEeeEEEeeeeEeeeeeeeEEeE",
    tokenSymbol := "ETH", balance := 50000000000000, decimals := 18,
    isNative := true }

/-- Witness for `filterSpamTokens_native_thresholds` at the concrete native
ETH balance of the claim. -/
theorem filterSpamTokens_native_thresholds_witness :
    filterSpamTokens [ethDustBalance] = [] :=
  ((filterSpamTokens_native_thresholds ethDustBalance rfl rfl).1 (Or.inl rfl)).1 rfl

/-! ## Compose flows (BiconomyService builders, MEE rebalance action)

From `BiconomyService.buildMultiIntentFlow`, `buildWithdrawalInstruction`,
`buildSimpleIntentFlow`, and the `composeFlows` assembly in
`meeSupertransactionRebalanceAction.handler`. -/

/-- A `(chainId, tokenAddress)` pair as used inside intent positions. -/
structure ChainToken where
  chainId : ℕ
  tokenAddress : String
deriving DecidableEq, Repr

/-- One `inputPositions` entry of an intent flow. -/
structure InputPosition where
  chainToken : ChainToken
  amount : String
deriving DecidableEq, Repr

/-- One `targetPositions` entry of an intent flow. -/
structure TargetPosition where
  chainToken : ChainToken
  weight : ℚ
deriving DecidableEq, Repr

/-- The `data` object of a `ComposeFlow`, one constructor per builder. -/
inductive ComposeFlowData where
  /-- Data of `/instructions/intent` (multi-position rebalance). -/
  | intent (slippage : ℚ) (inputPositions : List InputPosition)
      (targetPositions : List TargetPosition)
  /-- Data of `/instructions/build` (ERC-20 `transfer` withdrawal): function
  signature, recipient arg, runtime-balance token arg with its `gte`
  constraint, target contract, chain and gas limit. -/
  | build (functionSignature : String) (argRecipient : String)
      (argRuntimeBalanceToken : String) (argConstraintGte : String)
      (toAddress : String) (chainId : ℕ) (gasLimit : String)
  /-- Data of `/instructions/intent-simple`. -/
  | intentSimple (srcChainId dstChainId : ℕ) (srcToken dstToken : String)
      (amount : String) (slippage : ℚ)
deriving DecidableEq, Repr

/-- A declarative instruction submitted as part of a quote request. -/
structure ComposeFlow where
  type : String
  data : ComposeFlowData
  batch : Option Bool
deriving DecidableEq, Repr

/-- `BiconomyService.buildWithdrawalInstruction`: ERC-20 transfer of the
runtime balance of `tokenAddress` on `chainId` to `recipientAddress`. -/
def buildWithdrawalInstruction (tokenAddress : String) (chainId : ℕ)
    (recipientAddress : String) : ComposeFlow :=
  { type := "/instructions/build",
    data := .build "function transfer(address to, uint256 value)"
      recipientAddress tokenAddress "1" tokenAddress chainId "100000",
    batch := none }

/-- Input-position spec as passed by the rebalance handler. -/
structure InputSpec where
  chainId : ℕ
  tokenAddress : String
  amount : String
deriving DecidableEq, Repr

/-- Target-position spec as passed by the rebalance handler. -/
structure TargetSpec where
  chainId : ℕ
  tokenAddress : String
  weight : ℚ
deriving DecidableEq, Repr

/-- `BiconomyService.buildMultiIntentFlow`: the `/instructions/intent` flow
over the given input and target positions. -/
def buildMultiIntentFlow (inputPositions : List InputSpec)
    (targetPositions : List TargetSpec) (slippage : ℚ) : ComposeFlow :=
  { type := "/instructions/intent",
    data := .intent slippage
      (inputPositions.map fun p => ⟨⟨p.chainId, p.tokenAddress⟩, p.amount⟩)
      (targetPositions.map fun p => ⟨⟨p.chainId, p.tokenAddress⟩, p.weight⟩),
    batch := none }

/-- The `composeFlows` list the MEE rebalance handler puts into its EOA-mode
`QuoteRequest`: the rebalance flow first, then one withdrawal instruction per
target token, each sending that target token back to the user's EOA. -/
def rebalanceComposeFlows (inputChainId : ℕ) (inputTokenAddress : String)
    (amountInWei : String) (targets : List TargetSpec) (slippage : ℚ)
    (userAddress : String) : List ComposeFlow :=
  buildMultiIntentFlow [⟨inputChainId, inputTokenAddress, amountInWei⟩]
      targets slippage
    :: targets.map fun t => buildWithdrawalInstruction t.tokenAddress t.chainId userAddress

/-- Classifier: a rebalance (multi-position intent) flow. -/
def ComposeFlow.isRebalance (f : ComposeFlow) : Bool :=
  f.type = "/instructions/intent"

/-- Classifier: a withdrawal (`/instructions/build` transfer) flow. -/
def ComposeFlow.isWithdrawal (f : ComposeFlow) : Bool :=
  f.type = "/instructions/build"

/-! ### C2: EOA-mode rebalance flow composition -/

/-- **C2.** For every EOA-mode rebalance over `n` target tokens the composed
flow list has `n + 1` entries: exactly one rebalance flow, exactly one
withdrawal flow per target token (in target order, withdrawing that target's
token on its chain to the user), and the rebalance flow precedes every
withdrawal flow. -/
theorem rebalanceComposeFlows_shape (inputChainId : ℕ) (inputTokenAddress : String)
    (amountInWei : String) (targets : List TargetSpec) (slippage : ℚ)
    (userAddress : String) :
    (rebalanceComposeFlows inputChainId inputTokenAddress amountInWei targets
        slippage userAddress).length = targets.length + 1 ∧
    ((rebalanceComposeFlows inputChainId inputTokenAddress amountInWei targets
        slippage userAddress).filter ComposeFlow.isRebalance).length = 1 ∧
    (rebalanceComposeFlows inputChainId inputTokenAddress amountInWei targets
        slippage userAddress).filter ComposeFlow.isWithdrawal =
      targets.map (fun t =>
        buildWithdrawalInstruction t.tokenAddress t.chainId userAddress) ∧
    ∀ i j : ℕ, ∀ hi : i < (rebalanceComposeFlows inputChainId inputTokenAddress
        amountInWei targets slippage userAddress).length,
      ∀ hj : j < (rebalanceComposeFlows inputChainId inputTokenAddress
        amountInWei targets slippage userAddress).length,
      ((rebalanceComposeFlows inputChainId inputTokenAddress amountInWei targets
        slippage userAddress).get ⟨i, hi⟩).isRebalance = true →
      ((rebalanceComposeFlows inputChainId inputTokenAddress amountInWei targets
        slippage userAddress).get ⟨j, hj⟩).isWithdrawal = true → i < j := by
  have hmifR : (buildMultiIntentFlow [⟨inputChainId, inputTokenAddress, amountInWei⟩]
      targets slippage).isRebalance = true := rfl
  have hmifW : (buildMultiIntentFlow [⟨inputChainId, inputTokenAddress, amountInWei⟩]
      targets slippage).isWithdrawal = false := rfl
  have hwd : ∀ t : TargetSpec,
      (buildWithdrawalInstruction t.tokenAddress t.chainId userAddress).isRebalance
        = false := fun _ => rfl
  have hwd' : ∀ t : TargetSpec,
      (buildWithdrawalInstruction t.tokenAddress t.chainId userAddress).isWithdrawal
        = true := fun _ => rfl
  have hnil : ((targets.map fun t => buildWithdrawalInstruction t.tokenAddress
      t.chainId userAddress).filter ComposeFlow.isRebalance) = [] := by
    rw [List.filter_eq_nil_iff]
    intro f hf
    rcases List.mem_map.mp hf with ⟨t, _, rfl⟩
    simp [hwd t]
  have hself : ((targets.map fun t => buildWithdrawalInstruction t.tokenAddress
      t.chainId userAddress).filter ComposeFlow.isWithdrawal) =
      targets.map fun t => buildWithdrawalInstruction t.tokenAddress t.chainId
        userAddress := by
    rw [List.filter_eq_self]
    intro f hf
    rcases List.mem_map.mp hf with ⟨t, _, rfl⟩
    exact hwd' t
  refine ⟨?_, ?_, ?_, ?_⟩
  · simp [rebalanceComposeFlows]
  · simp [rebalanceComposeFlows, List.filter_cons, hmifR, hnil]
  · simp [rebalanceComposeFlows, List.filter_cons, hmifW, hself]
  · intro i j hi hj hri hwj
    match j, hj with
    | 0, hj =>
      rw [show (rebalanceComposeFlows inputChainId inputTokenAddress amountInWei
        targets slippage userAddress).get ⟨0, hj⟩ = buildMultiIntentFlow
          [⟨inputChainId, inputTokenAddress, amountInWei⟩] targets slippage from rfl]
        at hwj
      rw [hmifW] at hwj
      cases hwj
    | Nat.succ j', hj =>
      match i, hi with
      | 0, _ => exact Nat.succ_pos j'
      | Nat.succ i', hi =>
        exfalso
        have hseq : (rebalanceComposeFlows inputChainId inputTokenAddress amountInWei
            targets slippage userAddress).get ⟨Nat.succ i', hi⟩ =
            (targets.map fun t => buildWithdrawalInstruction t.tokenAddress
              t.chainId userAddress).get ⟨i', Nat.lt_of_succ_lt_succ (by
                simpa [rebalanceComposeFlows] using hi)⟩ := rfl
        rw [hseq, List.get_map] at hri
        rw [hwd _] at hri
        exact Bool.false_ne_true hri

/-- Witness for `rebalanceComposeFlows_shape` at the spec's end-to-end
example (USDC on Base split into WETH on Base and USDT on Optimism). -/
theorem rebalanceComposeFlows_shape_witness :
    (rebalanceComposeFlows 8453 "0xUSDC" "1000000000"
        [⟨8453, "0xWETH", 3/5⟩, ⟨10, "0xUSDT", 2/5⟩] (1/100) "0xUSER").length
      = 3 ∧
    ((rebalanceComposeFlows 8453 "0xUSDC" "1000000000"
        [⟨8453, "0xWETH", 3/5⟩, ⟨10, "0xUSDT", 2/5⟩] (1/100) "0xUSER").filter
      ComposeFlow.isRebalance).length = 1 :=
  ⟨(rebalanceComposeFlows_shape 8453 "0xUSDC" "1000000000"
      [⟨8453, "0xWETH", 3/5⟩, ⟨10, "0xUSDT", 2/5⟩] (1/100) "0xUSER").1,
   (rebalanceComposeFlows_shape 8453 "0xUSDC" "1000000000"
      [⟨8453, "0xWETH", 3/5⟩, ⟨10, "0xUSDT", 2/5⟩] (1/100) "0xUSER").2.1⟩

/-! ## Rebalance handler validation (MEE rebalance action)

From the parameter validation prefix of
`meeSupertransactionRebalanceAction.handler`: missing-parameter checks on the
six extracted (lower-cased, trimmed) string parameters, comma-splitting of
the three target parameters, the length check, the weight-sum check, chain
resolution, and only then the network phase (wallet lookup, token
resolution, quote, sign, execute).  `parseFloat` is passed as an oracle
(`String → ℚ`, JS numbers modelled as rationals); all network effects sit
behind the `networkPhase` continuation, which reports the list of network
calls it performed. -/

/-- Outcome of the handler's pure validation prefix: an early `return` with
the given `error` code, or the validated chain ids. -/
inductive RebalanceValidation where
  | rejected (errorCode : String)
  | proceed (inputChainId : ℕ) (targetChainIds : List ℕ)
deriving DecidableEq, Repr

/-- The parsed weight list: split `targetWeights` on commas, trim, and
apply `parseFloat` to each piece. -/
def parsedWeights (targetWeights : Option String) (parseFloat : String → ℚ) :
    List ℚ :=
  (splitComma (targetWeights.getD "")).map fun w => parseFloat (trimSpaces w)

/-- `weights.reduce((sum, w) => sum + w, 0)`. -/
def weightSum (targetWeights : Option String) (parseFloat : String → ℚ) : ℚ :=
  (parsedWeights targetWeights parseFloat).foldl (· + ·) 0

/-- The validation prefix of the rebalance handler, in source order:
missing input parameters, missing target parameters, mismatched target array
lengths, weight sum outside `1.0 ± 0.001`, unsupported input chain,
unsupported target chain; otherwise proceed with the resolved chain ids. -/
def validateRebalanceRequest (inputToken inputChain inputAmount targetTokens
    targetChains targetWeights : Option String) (parseFloat : String → ℚ)
    (resolveChainId : String → Option ℕ) : RebalanceValidation :=
  if ¬(jsTruthyStr inputToken ∧ jsTruthyStr inputChain ∧ jsTruthyStr inputAmount)
  then .rejected "missing_parameters"
  else if ¬(jsTruthyStr targetTokens ∧ jsTruthyStr targetChains ∧
      jsTruthyStr targetWeights)
  then .rejected "missing_parameters"
  else if ((splitComma (targetTokens.getD "")).map trimSpaces).length ≠
        ((splitComma (targetChains.getD "")).map trimSpaces).length ∨
      ((splitComma (targetTokens.getD "")).map trimSpaces).length ≠
        (parsedWeights targetWeights parseFloat).length
  then .rejected "invalid_parameters"
  else if |weightSum targetWeights parseFloat - 1| > 1 / 1000
  then .rejected "invalid_weights"
  else
    match resolveChainId (inputChain.getD "") with
    | none => .rejected "unsupported_chain"
    | some inputChainId =>
        if ((((splitComma (targetChains.getD "")).map trimSpaces).map
            resolveChainId).any (·.isNone))
        then .rejected "unsupported_chain"
        else .proceed inputChainId (((((splitComma (targetChains.getD "")).map
          trimSpaces).map resolveChainId)).map (·.getD 0))

/-- The handler's result record, reduced to the success flag and error code. -/
structure HandlerResult where
  success : Bool
  error : Option String
deriving DecidableEq, Repr

/-- The rebalance handler around its validation prefix: a rejected validation
returns the error immediately with no network call; otherwise the network
phase runs (and reports the calls it made). -/
def rebalanceHandler (inputToken inputChain inputAmount targetTokens
    targetChains targetWeights : Option String) (parseFloat : String → ℚ)
    (resolveChainId : String → Option ℕ)
    (networkPhase : ℕ → List ℕ → HandlerResult × List String) :
    HandlerResult × List String :=
  match validateRebalanceRequest inputToken inputChain inputAmount targetTokens
      targetChains targetWeights parseFloat resolveChainId with
  | .rejected errorCode => (⟨false, some errorCode⟩, [])
  | .proceed inputChainId targetChainIds => networkPhase inputChainId targetChainIds

/-! ### C3: weight-sum validation is a fail-fast boundary -/

/-- **C3.** If the six parameters are present and the target arrays have
matching lengths, then a weight list whose sum differs from `1` by more than
`0.001` makes the handler return the `invalid_weights` error with an empty
network-call list, whatever the network phase would have done; and no
request whose weight sum is within `1 ± 0.001` is ever rejected with
`invalid_weights`. -/
theorem rebalance_invalid_weights_fail_fast (inputToken inputChain inputAmount
    targetTokens targetChains targetWeights : Option String)
    (parseFloat : String → ℚ) (resolveChainId : String → Option ℕ)
    (hin : jsTruthyStr inputToken ∧ jsTruthyStr inputChain ∧
      jsTruthyStr inputAmount)
    (htg : jsTruthyStr targetTokens ∧ jsTruthyStr targetChains ∧
      jsTruthyStr targetWeights)
    (hlen : ((splitComma (targetTokens.getD "")).map trimSpaces).length =
        ((splitComma (targetChains.getD "")).map trimSpaces).length ∧
      ((splitComma (targetTokens.getD "")).map trimSpaces).length =
        (parsedWeights targetWeights parseFloat).length)
    (hsum : |weightSum targetWeights parseFloat - 1| > 1 / 1000) :
    (∀ networkPhase : ℕ → List ℕ → HandlerResult × List String,
      rebalanceHandler inputToken inputChain inputAmount targetTokens
          targetChains targetWeights parseFloat resolveChainId networkPhase =
        (⟨false, some "invalid_weights"⟩, [])) ∧
    (∀ it ic ia tt tc tw : Option String, ∀ pf : String → ℚ,
      ∀ rc : String → Option ℕ, |weightSum tw pf - 1| ≤ 1 / 1000 →
      validateRebalanceRequest it ic ia tt tc tw pf rc ≠
        .rejected "invalid_weights") := by
  constructor
  · intro networkPhase
    rw [rebalanceHandler, validateRebalanceRequest]
    rw [if_neg (by simp [hin.1, hin.2.1, hin.2.2]),
      if_neg (by simp [htg.1, htg.2.1, htg.2.2]),
      if_neg (by push_neg; exact hlen), if_pos hsum]
  · intro it ic ia tt tc tw pf rc hle hcontra
    rw [validateRebalanceRequest] at hcontra
    split_ifs at hcontra with h1 h2 h3 h4 <;>
      first
        | exact absurd (RebalanceValidation.rejected.inj hcontra) (by decide)
        | exact absurd h4 (not_lt.mpr hle)
        | (revert hcontra
           split <;> (try split) <;> intro hcontra <;>
             first
               | exact absurd (RebalanceValidation.rejected.inj hcontra) (by decide)
               | cases hcontra)

/-- A `parseFloat` oracle for the witness: `"0.7"` parses to `7 / 10`. -/
def exParseFloat : String → ℚ := fun s => if s = "0.7" then 7 / 10 else 0

/-- Witness for `rebalance_invalid_weights_fail_fast`: one target whose
weight string `"0.7"` sums to `0.7`, rejected with `invalid_weights` and an
empty network-call list no matter what the network phase does. -/
theorem rebalance_invalid_weights_fail_fast_witness :
    rebalanceHandler (some "usdc") (some "base") (some "1000") (some "weth")
        (some "base") (some "0.7") exParseFloat (fun _ => some 8453)
        (fun _ _ => (⟨true, none⟩, ["quote"])) =
      (⟨false, some "invalid_weights"⟩, []) :=
  (rebalance_invalid_weights_fail_fast (some "usdc") (some "base") (some "1000")
    (some "weth") (some "base") (some "0.7") exParseFloat (fun _ => some 8453)
    (by decide) (by decide) (by decide)
    (by
      rw [show weightSum (some "0.7") exParseFloat = 0 + 7 / 10 from rfl]
      rw [show (0 + 7 / 10 : ℚ) - 1 = -(3 / 10) by norm_num, abs_neg,
        abs_of_nonneg (by norm_num)]
      norm_num)).1 _

/-! ## BiconomyService: quote, payload signing, execution

From `BiconomyService.getQuote`, `signPayloads`, `execute` and
`executeIntent`.  The HTTP layer and the two signing backends are oracles:
`parseAuthorizations`/`parseQuote` stand for `JSON.parse` on the response
body (`.error` = the parse threw), a `CdpSigner` for the CDP account's
`signTypedData`, a `WalletSigner` for the viem wallet client's
`signTypedData` (given the account address).  Alongside its result,
`signPayloads` returns how many typed-data signatures were attempted, and
`executeIntent` returns the list of `execute` invocations it performed. -/

/-- The EIP-712 payload of a `PayloadToSign` (fields kept opaque). -/
structure SignablePayload where
  domain : String
  types : String
  primaryType : String
  message : String
deriving DecidableEq, Repr

/-- One entry of a quote's `payloadToSign` list. -/
structure PayloadToSign where
  signablePayload : SignablePayload
  signature : Option String
deriving DecidableEq, Repr

/-- The quote response (protocol-opaque fields omitted). -/
structure QuoteResponse where
  quoteType : String
  payloadToSign : List PayloadToSign
  ownerAddress : String
deriving DecidableEq, Repr

/-- The execute response. -/
structure ExecuteResponse where
  success : Bool
  supertxHash : Option String
  error : Option String
deriving DecidableEq, Repr

/-- A CDP account's `signTypedData` (may reject). -/
def CdpSigner : Type := SignablePayload → Except String String

/-- A viem wallet client's `signTypedData`, taking the account address. -/
def WalletSigner : Type := String → SignablePayload → Except String String

/-- An HTTP response: status code and raw body text. -/
structure HttpResponse where
  status : ℕ
  body : String
deriving DecidableEq, Repr

/-- `Response.ok`: status in the 200–299 range. -/
def responseOk (response : HttpResponse) : Bool :=
  200 ≤ response.status ∧ response.status ≤ 299

/-- `BiconomyService.getQuote`, given the quote endpoint's response: non-2xx
with status 412 parses the body's `authorizations` and throws
`Authorization required: …`; any other non-2xx throws
`Quote request failed: status body`; the outer catch re-wraps every thrown
error as `Failed to get Biconomy quote: …`. -/
def getQuote (parseAuthorizations : String → Except String String)
    (parseQuote : String → Except String QuoteResponse)
    (response : HttpResponse) : Except String QuoteResponse :=
  match
    (if ¬responseOk response then
      if response.status = 412 then
        match parseAuthorizations response.body with
        | .error e => .error e
        | .ok authorizations =>
            .error ("Authorization required: " ++ authorizations)
      else
        .error ("Quote request failed: " ++ toString response.status ++ " " ++
          response.body)
    else parseQuote response.body : Except String QuoteResponse)
  with
  | .ok quote => .ok quote
  | .error e => .error ("Failed to get Biconomy quote: " ++ e)

/-- The per-payload `switch (quote.quoteType)` of
`BiconomyService.signPayloads`: `permit`/`simple` sign typed data (CDP
account preferred, wallet client with its account address as fallback),
`onchain` throws, anything else throws.  Returns the signature (or thrown
error) and the number of typed-data signatures attempted (0 or 1). -/
def signOne (quoteType : String) (cdpAccount : Option CdpSigner)
    (walletClient : Option WalletSigner) (account : Option String)
    (payload : PayloadToSign) : Except String String × ℕ :=
  if quoteType = "permit" ∨ quoteType = "simple" then
    match cdpAccount with
    | some signer => (signer payload.signablePayload, 1)
    | none =>
        match walletClient, account with
        | some signer, some address => (signer address payload.signablePayload, 1)
        | _, _ => (.error "No valid signer available", 0)
  else if quoteType = "onchain" then
    (.error "Onchain approval not yet implemented - token does not support EIP-2612", 0)
  else
    (.error ("Unknown quote type: " ++ quoteType), 0)

/-- The signing loop of `BiconomyService.signPayloads`: sign each payload in
order, pushing `{ ...payload, signature }`; a thrown error aborts the loop.
Returns the signed list (or the thrown error) together with the total number
of typed-data signatures attempted. -/
def signPayloadsGo (quoteType : String) (cdpAccount : Option CdpSigner)
    (walletClient : Option WalletSigner) (account : Option String) :
    List PayloadToSign → Except String (List PayloadToSign) × ℕ
  | [] => (.ok [], 0)
  | payload :: rest =>
      match signOne quoteType cdpAccount walletClient account payload with
      | (.ok signature, attempts) =>
          match signPayloadsGo quoteType cdpAccount walletClient account rest with
          | (.ok signedRest, n) =>
              (.ok ({ payload with signature := some signature } :: signedRest),
                n + attempts)
          | (.error e, n) => (.error e, n + attempts)
      | (.error e, attempts) => (.error e, attempts)

/-- `BiconomyService.signPayloads`: validate the signer arguments
(`!cdpAccount && !walletClient` throws, `walletClient && !account` throws),
then run the signing loop over the quote's ordered payload list. -/
def signPayloads (quote : QuoteResponse) (cdpAccount : Option CdpSigner)
    (walletClient : Option WalletSigner) (account : Option String) :
    Except String (List PayloadToSign) × ℕ :=
  if cdpAccount.isNone ∧ walletClient.isNone then
    (.error "Either cdpAccount or walletClient must be provided", 0)
  else if walletClient.isSome ∧ account.isNone then
    (.error "account address is required when using walletClient", 0)
  else
    signPayloadsGo quote.quoteType cdpAccount walletClient account
      quote.payloadToSign

/-- `BiconomyService.execute`: POST the quote with the signed payload list;
a thrown/non-2xx failure is re-wrapped by the catch. -/
def executeCall
    (executeOracle : QuoteResponse → List PayloadToSign → Except String ExecuteResponse)
    (quote : QuoteResponse) (signedPayloads : List PayloadToSign) :
    Except String ExecuteResponse :=
  match executeOracle quote signedPayloads with
  | .ok result => .ok result
  | .error e => .error ("Failed to execute Biconomy supertransaction: " ++ e)

/-- `BiconomyService.executeIntent`: quote, then sign, then execute; any
step's thrown error aborts the flow.  The second component lists every
`execute` invocation (quote and payload list passed to it). -/
def executeIntent (getQuoteResult : Except String QuoteResponse)
    (cdpAccount : Option CdpSigner) (walletClient : Option WalletSigner)
    (account : Option String)
    (executeOracle : QuoteResponse → List PayloadToSign → Except String ExecuteResponse) :
    Except String ExecuteResponse × List (QuoteResponse × List PayloadToSign) :=
  match getQuoteResult with
  | .error e => (.error e, [])
  | .ok quote =>
      match signPayloads quote cdpAccount walletClient account with
      | (.error e, _) => (.error e, [])
      | (.ok signedPayloads, _) =>
          (executeCall executeOracle quote signedPayloads, [(quote, signedPayloads)])

/-! ### C6: onchain quotes fail closed -/

/-- **C6.** With valid signer arguments, a quote of type `onchain` with at
least one payload to sign makes `signPayloads` throw the explicit
approval-required error, with zero typed-data signature attempts. -/
theorem signPayloads_onchain_fails (quote : QuoteResponse)
    (cdpAccount : Option CdpSigner) (walletClient : Option WalletSigner)
    (account : Option String)
    (htype : quote.quoteType = "onchain") (hne : quote.payloadToSign ≠ [])
    (hsigner : cdpAccount.isSome = true ∨ walletClient.isSome = true)
    (haccount : walletClient.isSome = true → account.isSome = true) :
    signPayloads quote cdpAccount walletClient account =
      (.error "Onchain approval not yet implemented - token does not support EIP-2612", 0) := by
  have hone : ∀ payload,
      signOne "onchain" cdpAccount walletClient account payload =
        (.error "Onchain approval not yet implemented - token does not support EIP-2612", 0) := by
    intro payload
    rw [signOne.eq_def,
      if_neg (show ¬("onchain" = "permit" ∨ "onchain" = "simple") by decide),
      if_pos (show ("onchain" : String) = "onchain" from rfl)]
  have hgo : ∀ p rest,
      signPayloadsGo "onchain" cdpAccount walletClient account (p :: rest) =
        (.error "Onchain approval not yet implemented - token does not support EIP-2612", 0) := by
    intro p rest
    rw [signPayloadsGo, hone p]
  have hg1 : ¬(cdpAccount.isNone ∧ walletClient.isNone) := by
    rcases hsigner with h | h <;> intro hc <;> simp_all
  have hg2 : ¬(walletClient.isSome ∧ account.isNone) := by
    rintro ⟨h1, h2⟩
    have := haccount h1
    simp_all
  rw [signPayloads, if_neg hg1, if_neg hg2, htype]
  match hpl : quote.payloadToSign, hne with
  | p :: rest, _ => exact hgo p rest

/-- A sample unsigned payload. -/
def exPayload : PayloadToSign :=
  { signablePayload :=
      { domain := "d", types := "t", primaryType := "Permit", message := "m" },
    signature := none }

/-- A sample `onchain` quote with one payload. -/
def exOnchainQuote : QuoteResponse :=
  { quoteType := "onchain", payloadToSign := [exPayload],
    ownerAddress := "0xOWNER" }

/-- A CDP signer oracle that would sign anything. -/
def exCdpSigner : CdpSigner := fun _ => .ok "0xsig"

/-- Witness for `signPayloads_onchain_fails` at a concrete onchain quote. -/
theorem signPayloads_onchain_fails_witness :
    signPayloads exOnchainQuote (some exCdpSigner) none none =
      (.error "Onchain approval not yet implemented - token does not support EIP-2612", 0) :=
  signPayloads_onchain_fails exOnchainQuote (some exCdpSigner) none none rfl
    (by decide) (Or.inl rfl) (fun h => nomatch h)

/-! ### C7: all-or-nothing signing -/

/-- Shape of any successful signing-loop result: one signed payload per
input payload, in order, with the original `signablePayload` preserved and a
signature present. -/
theorem signPayloadsGo_ok_shape (quoteType : String)
    (cdpAccount : Option CdpSigner) (walletClient : Option WalletSigner)
    (account : Option String) :
    ∀ (payloads signed : List PayloadToSign) (n : ℕ),
      signPayloadsGo quoteType cdpAccount walletClient account payloads =
        (.ok signed, n) →
      signed.map PayloadToSign.signablePayload =
        payloads.map PayloadToSign.signablePayload ∧
      ∀ p ∈ signed, p.signature.isSome = true := by
  intro payloads
  induction payloads with
  | nil =>
    intro signed n h
    rw [signPayloadsGo] at h
    injection h with h1 h2
    injection h1 with h1
    subst h1
    simp
  | cons p rest ih =>
    intro signed n h
    rw [signPayloadsGo] at h
    rcases hone : signOne quoteType cdpAccount walletClient account p with ⟨r1, k⟩
    rw [hone] at h
    rcases r1 with e | sig
    · injection h with h1 h2
      exact Except.noConfusion h1
    · rcases hrest : signPayloadsGo quoteType cdpAccount walletClient account rest
        with ⟨r2, m⟩
      rw [hrest] at h
      rcases r2 with e | signedRest
      · injection h with h1 h2
        exact Except.noConfusion h1
      · injection h with h1 h2
        injection h1 with h1
        subst h1
        obtain ⟨ihm, ihs⟩ := ih signedRest m hrest
        refine ⟨by simp [ihm], ?_⟩
        intro q hq'
        rcases List.mem_cons.mp hq' with rfl | hq''
        · rfl
        · exact ihs q hq''

/-- Lift of `signPayloadsGo_ok_shape` through the argument validation of
`signPayloads`. -/
theorem signPayloads_ok_shape (quote : QuoteResponse)
    (cdpAccount : Option CdpSigner) (walletClient : Option WalletSigner)
    (account : Option String) (signed : List PayloadToSign) (n : ℕ)
    (h : signPayloads quote cdpAccount walletClient account = (.ok signed, n)) :
    signed.map PayloadToSign.signablePayload =
      quote.payloadToSign.map PayloadToSign.signablePayload ∧
    ∀ p ∈ signed, p.signature.isSome = true := by
  rw [signPayloads] at h
  split_ifs at h with h1 h2
  · injection h with h1 h2
    exact Except.noConfusion h1
  · injection h with h1 h2
    exact Except.noConfusion h1
  · exact signPayloadsGo_ok_shape _ _ _ _ _ signed n h

/-- **C7.** A successful `signPayloads` returns exactly one signed payload
per entry of the quote's `payloadToSign` — same order, `signablePayload`
preserved, signature added — and `executeIntent` only ever invokes `execute`
with such a fully signed list (no partially signed set reaches execution;
a signing failure aborts before any `execute` call). -/
theorem signPayloads_all_or_nothing (quote : QuoteResponse)
    (cdpAccount : Option CdpSigner) (walletClient : Option WalletSigner)
    (account : Option String) (signed : List PayloadToSign) (n : ℕ)
    (hsign : signPayloads quote cdpAccount walletClient account = (.ok signed, n))
    (getQuoteResult : Except String QuoteResponse)
    (executeOracle : QuoteResponse → List PayloadToSign → Except String ExecuteResponse) :
    signed.map PayloadToSign.signablePayload =
      quote.payloadToSign.map PayloadToSign.signablePayload ∧
    (∀ p ∈ signed, p.signature.isSome = true) ∧
    ∀ q payloadList,
      (q, payloadList) ∈
        (executeIntent getQuoteResult cdpAccount walletClient account
          executeOracle).2 →
      payloadList.map PayloadToSign.signablePayload =
        q.payloadToSign.map PayloadToSign.signablePayload ∧
      ∀ p ∈ payloadList, p.signature.isSome = true := by
  obtain ⟨hm, hs⟩ := signPayloads_ok_shape quote cdpAccount walletClient account
    signed n hsign
  refine ⟨hm, hs, ?_⟩
  intro q payloadList hmem
  rcases getQuoteResult with e | quote'
  · rw [executeIntent] at hmem
    simp at hmem
  · rw [executeIntent] at hmem
    rcases hsp : signPayloads quote' cdpAccount walletClient account with ⟨r, m⟩
    rw [hsp] at hmem
    rcases r with e' | signedPayloads
    · simp at hmem
    · simp only [List.mem_singleton] at hmem
      injection hmem with hq hpl
      subst hq
      subst hpl
      exact signPayloads_ok_shape _ cdpAccount walletClient account _ m hsp

/-- A `simple` quote with one payload. -/
def exSimpleQuote : QuoteResponse :=
  { quoteType := "simple", payloadToSign := [exPayload],
    ownerAddress := "0xOWNER" }

/-- Witness for `signPayloads_all_or_nothing`: signing a one-payload
`simple` quote with the CDP signer yields exactly that payload with the
signature filled in. -/
theorem signPayloads_all_or_nothing_witness :
    signPayloads exSimpleQuote (some exCdpSigner) none none =
      (.ok [{ exPayload with signature := some "0xsig" }], 1) ∧
    [{ exPayload with signature := some "0xsig" }].map
        PayloadToSign.signablePayload =
      exSimpleQuote.payloadToSign.map PayloadToSign.signablePayload :=
  ⟨rfl,
    (signPayloads_all_or_nothing exSimpleQuote (some exCdpSigner) none none
      [{ exPayload with signature := some "0xsig" }] 1 rfl (.error "unused")
      (fun _ _ => .error "unused")).1⟩

/-! ### C9: HTTP 412 is a distinct authorization-required failure -/

/-- Two wrapped quote errors with different fixed heads are never the same
string: the authorization message and the generic quote-failure message
differ at character index 30 whatever follows them. -/
theorem quote_error_messages_distinct (a b : String) :
    ("Failed to get Biconomy quote: Authorization required: " ++ a) ≠
      ("Failed to get Biconomy quote: Quote request failed: " ++ b) := by
  intro h
  have hd : ("Failed to get Biconomy quote: Authorization required: ").data ++
        a.data =
      ("Failed to get Biconomy quote: Quote request failed: ").data ++ b.data :=
    congrArg String.data h
  have h30 := congrArg (fun l => l[30]?) hd
  simp only at h30
  rw [List.getElem?_append_left (by decide),
    List.getElem?_append_left (by decide)] at h30
  exact absurd h30 (by decide)

/-- **C9.** A 412 quote response whose body parses yields the distinct
`Authorization required` failure carrying the parsed `authorizations`
field, and every other non-2xx status yields the generic
`Quote request failed` error, which is never equal to the 412 error
message. -/
theorem getQuote_412_distinct
    (parseAuthorizations : String → Except String String)
    (parseQuote : String → Except String QuoteResponse)
    (response : HttpResponse) (authorizations : String)
    (h412 : response.status = 412)
    (hparse : parseAuthorizations response.body = .ok authorizations) :
    getQuote parseAuthorizations parseQuote response =
      .error ("Failed to get Biconomy quote: Authorization required: " ++
        authorizations) ∧
    ∀ other : HttpResponse, responseOk other = false → other.status ≠ 412 →
      getQuote parseAuthorizations parseQuote other =
        .error ("Failed to get Biconomy quote: Quote request failed: " ++
          toString other.status ++ " " ++ other.body) ∧
      ("Failed to get Biconomy quote: Quote request failed: " ++
          toString other.status ++ " " ++ other.body) ≠
        ("Failed to get Biconomy quote: Authorization required: " ++
          authorizations) := by
  constructor
  · rw [getQuote, if_pos (by simp [responseOk, h412]), if_pos h412, hparse]
    show Except.error ("Failed to get Biconomy quote: " ++
      ("Authorization required: " ++ authorizations)) = _
    rw [← String.append_assoc]
    rfl
  · intro other hok h412'
    constructor
    · rw [getQuote, if_pos (by simp [hok]), if_neg h412']
      show Except.error ("Failed to get Biconomy quote: " ++
        ("Quote request failed: " ++ toString other.status ++ " " ++
          other.body)) = _
      rw [← String.append_assoc, ← String.append_assoc, ← String.append_assoc]
      rw [show ("Failed to get Biconomy quote: " ++ "Quote request failed: "
        : String) = "Failed to get Biconomy quote: Quote request failed: "
        from rfl]
    · intro h
      exact quote_error_messages_distinct authorizations
        (toString other.status ++ " " ++ other.body) h.symm

/-! ## DefiLlama retry loops

From `DefiLlamaService.getPoolChart` and `DefiLlamaService.loadIndex`.
`fetch k` is the outcome of the `k`-th fetch attempt (`.error` = thrown /
non-2xx), `jitter k` is the value of `Math.floor(Math.random() * 200)`
drawn before the `k`-th wait.  Each function returns its result together
with the list of waits (in ms) it slept between attempts.  The loops are
written with an explicit `fuel` argument counting the attempts remaining
after the current one (`fuel = maxAttempts - attempt`), so `fuel = 0` is the
source's `isLast = attempt === maxAttempts`. -/

/-- The retry loop of `getPoolChart`: on a non-final failure wait
`500 * 2 ^ (attempt - 1)` ms and retry; re-throw the final failure as
`Failed to fetch pool chart: …`. -/
def getPoolChartGo {α : Type} (fetch : ℕ → Except String α) :
    ℕ → ℕ → Except String α × List ℕ
  | attempt, fuel =>
      match fetch attempt with
      | .ok v => (.ok v, [])
      | .error msg =>
          match fuel with
          | 0 => (.error ("Failed to fetch pool chart: " ++ msg), [])
          | fuel' + 1 =>
              match getPoolChartGo fetch (attempt + 1) fuel' with
              | (r, waits) => (r, (500 * 2 ^ (attempt - 1)) :: waits)

/-- `DefiLlamaService.getPoolChart`: `maxAttempts = 3`, so attempt 1 with
two retries left. -/
def getPoolChart {α : Type} (fetch : ℕ → Except String α) :
    Except String α × List ℕ :=
  getPoolChartGo fetch 1 2

/-- The retry loop of `loadIndex`: on a non-final failure wait
`500 * 2 ^ (attempt - 1) + jitter` ms and retry; on the final failure log
and `break` — the caller sees a normal return (`none`), not an error. -/
def loadIndexGo {α : Type} (fetch : ℕ → Except String α) (jitter : ℕ → ℕ) :
    ℕ → ℕ → Option α × List ℕ
  | attempt, fuel =>
      match fetch attempt with
      | .ok v => (some v, [])
      | .error _ =>
          match fuel with
          | 0 => (none, [])
          | fuel' + 1 =>
              match loadIndexGo fetch jitter (attempt + 1) fuel' with
              | (r, waits) =>
                  (r, (500 * 2 ^ (attempt - 1) + jitter attempt) :: waits)

/-- `DefiLlamaService.loadIndex`: `maxAttempts = 5`, `baseDelayMs = 500`,
so attempt 1 with four retries left. -/
def loadIndex {α : Type} (fetch : ℕ → Except String α) (jitter : ℕ → ℕ) :
    Option α × List ℕ :=
  loadIndexGo fetch jitter 1 4

/-! ### C8: retry backoff and error surfacing -/

/-- **C8 counterexample.** When every one of `loadIndex`'s five attempts
fails, the caller receives a normal return (`none`) — the final error is
logged and swallowed by `break`, not surfaced — and the recorded waits carry
the random jitter (here 123 ms per draw), so they are not exactly
`baseDelay * 2 ^ k`. -/
theorem loadIndex_swallows_final_error :
    loadIndex (fun _ => (.error "network error" : Except String ℕ))
        (fun _ => 123) =
      (none, [623, 1123, 2123, 4123]) := by
  decide

/-- **C8 (amended).** `getPoolChart` waits `500 * 2 ^ (k - 1)` ms after its
`k`-th failed attempt (500 ms, 1000 ms), stops after 3 attempts, and
surfaces the final error (wrapped as `Failed to fetch pool chart: …`);
`loadIndex` waits `500 * 2 ^ (k - 1) + jitter` ms, stops after 5 attempts,
and returns normally without surfacing the final error. -/
theorem retry_backoff_spec {α : Type} (fetch : ℕ → Except String α)
    (jitter : ℕ → ℕ) :
    (∀ v, fetch 1 = .ok v → getPoolChart fetch = (.ok v, [])) ∧
    (∀ m1 v, fetch 1 = .error m1 → fetch 2 = .ok v →
      getPoolChart fetch = (.ok v, [500])) ∧
    (∀ m1 m2 v, fetch 1 = .error m1 → fetch 2 = .error m2 → fetch 3 = .ok v →
      getPoolChart fetch = (.ok v, [500, 1000])) ∧
    (∀ m1 m2 m3, fetch 1 = .error m1 → fetch 2 = .error m2 →
      fetch 3 = .error m3 →
      getPoolChart fetch =
        (.error ("Failed to fetch pool chart: " ++ m3), [500, 1000])) ∧
    (∀ m1 m2 m3 m4 m5, fetch 1 = .error m1 → fetch 2 = .error m2 →
      fetch 3 = .error m3 → fetch 4 = .error m4 → fetch 5 = .error m5 →
      loadIndex fetch jitter =
        (none, [500 + jitter 1, 1000 + jitter 2, 2000 + jitter 3,
          4000 + jitter 4])) ∧
    (∀ v, fetch 1 = .ok v → loadIndex fetch jitter = (some v, [])) := by
  refine ⟨?_, ?_, ?_, ?_, ?_, ?_⟩
  · intro v h1
    simp [getPoolChart, getPoolChartGo, h1]
  · intro m1 v h1 h2
    simp [getPoolChart, getPoolChartGo, h1, h2]
  · intro m1 m2 v h1 h2 h3
    simp [getPoolChart, getPoolChartGo, h1, h2, h3]
  · intro m1 m2 m3 h1 h2 h3
    simp [getPoolChart, getPoolChartGo, h1, h2, h3]
  · intro m1 m2 m3 m4 m5 h1 h2 h3 h4 h5
    simp [loadIndex, loadIndexGo, h1, h2, h3, h4, h5]
  · intro v h1
    simp [loadIndex, loadIndexGo, h1]

/-- Witness for `retry_backoff_spec`: a fetch that always fails makes
`getPoolChart` wait 500 ms then 1000 ms and surface the wrapped final
error after its third attempt. -/
theorem retry_backoff_spec_witness :
    getPoolChart (fun _ => (.error "timeout" : Except String ℕ)) =
      (.error "Failed to fetch pool chart: timeout", [500, 1000]) :=
  (retry_backoff_spec (fun _ => (.error "timeout" : Except String ℕ))
    (fun _ => 0)).2.2.2.1 "timeout" "timeout" "timeout" rfl rfl rfl

/-! ## Auto-withdraw orchestration

From `biconomyAutoWithdrawAction.handler` (after wallet resolution).  The
per-chain effects are oracles keyed by chain id: `scan` is the outcome of
the chain's try-block in the scan loop (Nexus lookup + balance scan; `.ok
balances` also covers "no Nexus account" as `.ok []`, `.error` is a thrown
error, which the loop catches, logs and skips), and `step` is the outcome of
the chain's try-block in the withdraw loop (`noFunding` = the funding-token
lookup returned null, so the chain is skipped with `continue`; `thrown` = an
exception anywhere in the try-block; `executed` = `executeIntent`
returned). -/

/-- `getChainNameFromId`. -/
def getChainNameFromId (chainId : ℕ) : String :=
  if chainId = 1 then "ethereum"
  else if chainId = 8453 then "base"
  else if chainId = 10 then "optimism"
  else if chainId = 42161 then "arbitrum"
  else if chainId = 137 then "polygon"
  else "unknown"

/-- The scan loop over `supportedChains`: each chain contributes its scanned
balances; a thrown scan error is caught and the chain contributes nothing. -/
def scanPhase (chains : List (String × ℕ))
    (scan : ℕ → Except String (List TokenBalance)) : List TokenBalance :=
  (chains.map fun chain =>
    match scan chain.2 with
    | .ok balances => balances
    | .error _ => []).join

/-- The key set of the `balancesByChain` object: JS objects enumerate
integer-like keys in ascending numeric order. -/
def chainIdsAscending (balances : List TokenBalance) : List ℕ :=
  ((balances.map TokenBalance.chainId).dedup).insertionSort (· ≤ ·)

/-- `legitimateBalances.reduce(...)`: group the filtered balances by chain
id (each group keeps scan order; keys ascend as in `Object.entries`). -/
def groupByChain (balances : List TokenBalance) :
    List (ℕ × List TokenBalance) :=
  (chainIdsAscending balances).map fun chainId =>
    (chainId, balances.filter fun b => b.chainId = chainId)

/-- Outcome of one chain's try-block in the withdraw loop. -/
inductive ChainStepOutcome where
  | thrown (msg : String)
  | noFunding
  | executed (result : ExecuteResponse)
deriving DecidableEq, Repr

/-- One entry of the handler's `results` array. -/
structure ChainResult where
  chain : String
  chainId : ℕ
  success : Bool
  supertxHash : Option String
  tokensWithdrawn : ℕ
  error : Option String
deriving DecidableEq, Repr

/-- One iteration of the withdraw loop: `none` = no entry pushed (funding
token missing, `continue`); otherwise the success entry (when
`result.success && result.supertxHash`) or the failure entry. -/
def withdrawChain (step : ℕ → ChainStepOutcome) (chainId : ℕ)
    (balances : List TokenBalance) : Option ChainResult :=
  match step chainId with
  | .noFunding => none
  | .thrown msg =>
      some { chain := getChainNameFromId chainId, chainId := chainId,
             success := false, supertxHash := none, tokensWithdrawn := 0,
             error := some msg }
  | .executed result =>
      if result.success && jsTruthyStr result.supertxHash then
        some { chain := getChainNameFromId chainId, chainId := chainId,
               success := true, supertxHash := result.supertxHash,
               tokensWithdrawn := balances.length, error := none }
      else
        some { chain := getChainNameFromId chainId, chainId := chainId,
               success := false, supertxHash := none, tokensWithdrawn := 0,
               error := some (if jsTruthyStr result.error then
                 result.error.getD "Unknown error" else "Unknown error") }

/-- The handler's aggregate report (`withdrawLoopChains` counts the chains
the withdraw loop iterated over: 0 on the two early returns). -/
structure RunResult where
  success : Bool
  results : List ChainResult
  chainsScanned : ℕ
  tokensFound : ℕ
  tokensFiltered : ℕ
  tokensWithdrawn : ℕ
  chainsWithdrawn : ℕ
  chainsFailed : ℕ
  withdrawLoopChains : ℕ
deriving DecidableEq, Repr

/-- The handler body after the scan loop, as a function of the collected
`allBalances`: the two early returns (no tokens found; everything filtered
as spam), then the withdraw loop and the summary. -/
def autoWithdrawCore (chainsScanned : ℕ) (allBalances : List TokenBalance)
    (step : ℕ → ChainStepOutcome) : RunResult :=
  if allBalances.isEmpty then
    { success := true, results := [], chainsScanned := chainsScanned,
      tokensFound := 0, tokensFiltered := 0, tokensWithdrawn := 0,
      chainsWithdrawn := 0, chainsFailed := 0, withdrawLoopChains := 0 }
  else if (filterSpamTokens allBalances).isEmpty then
    { success := true, results := [], chainsScanned := chainsScanned,
      tokensFound := allBalances.length, tokensFiltered := allBalances.length,
      tokensWithdrawn := 0, chainsWithdrawn := 0, chainsFailed := 0,
      withdrawLoopChains := 0 }
  else
    { success :=
        decide (0 < (((groupByChain (filterSpamTokens allBalances)).filterMap
          (fun g => withdrawChain step g.1 g.2)).filter
            (fun r => r.success)).length),
      results := (groupByChain (filterSpamTokens allBalances)).filterMap
        (fun g => withdrawChain step g.1 g.2),
      chainsScanned := chainsScanned,
      tokensFound := allBalances.length,
      tokensFiltered :=
        allBalances.length - (filterSpamTokens allBalances).length,
      tokensWithdrawn := (((groupByChain (filterSpamTokens allBalances)).filterMap
        (fun g => withdrawChain step g.1 g.2)).filter
          (fun r => r.success)).foldl (fun acc r => acc + r.tokensWithdrawn) 0,
      chainsWithdrawn := (((groupByChain (filterSpamTokens allBalances)).filterMap
        (fun g => withdrawChain step g.1 g.2)).filter
          (fun r => r.success)).length,
      chainsFailed := (((groupByChain (filterSpamTokens allBalances)).filterMap
        (fun g => withdrawChain step g.1 g.2)).filter
          (fun r => !r.success)).length,
      withdrawLoopChains := (groupByChain (filterSpamTokens allBalances)).length }

/-- The full orchestration: scan loop, then the core. -/
def autoWithdrawRun (chains : List (String × ℕ))
    (scan : ℕ → Except String (List TokenBalance))
    (step : ℕ → ChainStepOutcome) : RunResult :=
  autoWithdrawCore chains.length (scanPhase chains scan) step

/-! ### C10: meaning of the top-level success flag -/

/-- **C10.** The run reports `success = true` exactly when some chain's
withdrawal entry succeeded, or the scan found no balances at all, or every
found balance was filtered as spam; and in the latter two cases the run
returns with no results and without entering the withdraw loop. -/
theorem autoWithdraw_success_iff (chains : List (String × ℕ))
    (scan : ℕ → Except String (List TokenBalance))
    (step : ℕ → ChainStepOutcome) :
    ((autoWithdrawRun chains scan step).success = true ↔
      (∃ r ∈ (autoWithdrawRun chains scan step).results, r.success = true) ∨
      scanPhase chains scan = [] ∨
      filterSpamTokens (scanPhase chains scan) = []) ∧
    (scanPhase chains scan = [] ∨
        filterSpamTokens (scanPhase chains scan) = [] →
      (autoWithdrawRun chains scan step).results = [] ∧
      (autoWithdrawRun chains scan step).withdrawLoopChains = 0) := by
  simp only [autoWithdrawRun, autoWithdrawCore]
  split_ifs with h1 h2
  · rw [List.isEmpty_iff] at h1
    simp [h1]
  · rw [List.isEmpty_iff] at h2
    simp [h2]
  · rw [List.isEmpty_iff] at h1 h2
    constructor
    · simp only [decide_eq_true_iff]
      constructor
      · intro hs
        left
        have hne := List.length_pos.mp hs
        obtain ⟨r, hr⟩ := List.exists_mem_of_ne_nil _ hne
        obtain ⟨hrm, hrs⟩ := List.mem_filter.mp hr
        exact ⟨r, hrm, hrs⟩
      · rintro (⟨r, hrm, hrs⟩ | h | h)
        · exact List.length_pos.mpr
            (List.ne_nil_of_mem (List.mem_filter.mpr ⟨hrm, hrs⟩))
        · exact absurd h h1
        · exact absurd h h2
    · rintro (h | h)
      · exact absurd h h1
      · exact absurd h h2

/-- Witness for `autoWithdraw_success_iff`: a run finding no balances
anywhere reports `success = true` with no results. -/
theorem autoWithdraw_success_iff_witness :
    (autoWithdrawRun [("base", 8453)] (fun _ => .ok [])
        (fun _ => .noFunding)).success = true :=
  (autoWithdraw_success_iff [("base", 8453)] (fun _ => .ok [])
      (fun _ => .noFunding)).1.mpr (Or.inr (Or.inl (by decide)))

/-! ### C1: chain-failure isolation in the orchestration loop -/

/-- A scanned USDC balance on Ethereum. -/
def exUsdcEth : TokenBalance :=
  { chainId := 1, chainName := "ethereum",
    tokenAddress := "0xA0b86991c6218b36c1d19D4a2e9Eb0cE3606eB48",
    tokenSymbol := "USDC", balance := 5000000, decimals := 6,
    isNative := false }

/-- A scanned USDC balance on Optimism. -/
def exUsdcOpt : TokenBalance :=
  { chainId := 10, chainName := "optimism",
    tokenAddress := "0x0b2C639c533813f4Aa9D7837CAf62653d097Ff85",
    tokenSymbol := "USDC", balance := 7000000, decimals := 6,
    isNative := false }

/-- A scan oracle: Ethereum and Optimism return a USDC balance, every other
chain's scan throws a network error. -/
def exScan : ℕ → Except String (List TokenBalance) := fun chainId =>
  if chainId = 1 then .ok [exUsdcEth]
  else if chainId = 10 then .ok [exUsdcOpt]
  else .error "network error"

/-- A step oracle whose withdrawals always succeed. -/
def exStep : ℕ → ChainStepOutcome := fun _ =>
  .executed { success := true, supertxHash := some "0xabc", error := none }

/-- The three chains of the claim's scenario; chain B is `base` (8453). -/
def exChains : List (String × ℕ) :=
  [("ethereum", 1), ("base", 8453), ("optimism", 10)]

/-- **C1 counterexample.** In the claim's 3-chain scenario — chain B's
balance scan throws a network error — the run does return results for
chains A and C, but records *no* entry at all for B: a scan-loop failure is
caught and logged only, never appended to `results`, so the claimed failure
entry for B is absent. -/
theorem autoWithdraw_scan_failure_unrecorded :
    exScan 8453 = .error "network error" ∧
    ((autoWithdrawRun exChains exScan exStep).results.map
      ChainResult.chainId) = [1, 10] ∧
    ((autoWithdrawRun exChains exScan exStep).results.filter
      (fun r => r.chainId = 8453)) = [] :=
  ⟨rfl, by decide, by decide⟩

/-- `scanPhase` distributes over list append. -/
theorem scanPhase_append (c1 c2 : List (String × ℕ))
    (scan : ℕ → Except String (List TokenBalance)) :
    scanPhase (c1 ++ c2) scan = scanPhase c1 scan ++ scanPhase c2 scan := by
  simp [scanPhase]

/-- The `results`, `success` and `withdrawLoopChains` fields of the core do
not depend on the scanned-chain count. -/
theorem autoWithdrawCore_chains_irrel (n m : ℕ)
    (allBalances : List TokenBalance) (step : ℕ → ChainStepOutcome) :
    (autoWithdrawCore n allBalances step).results =
      (autoWithdrawCore m allBalances step).results ∧
    (autoWithdrawCore n allBalances step).success =
      (autoWithdrawCore m allBalances step).success := by
  simp only [autoWithdrawCore]
  split_ifs <;> simp

/-- Every chain that enters the withdraw loop (it has a group and a funding
token) and whose step does not produce a successful execution gets a failure
entry in the produced results. -/
theorem withdrawPhase_failure_recorded (step : ℕ → ChainStepOutcome)
    (grouped : List (ℕ × List TokenBalance)) (cid : ℕ)
    (hmem : cid ∈ grouped.map Prod.fst)
    (hnf : step cid ≠ .noFunding)
    (hns : ∀ result, step cid = .executed result →
      ¬(result.success = true ∧ jsTruthyStr result.supertxHash = true)) :
    ∃ r ∈ grouped.filterMap (fun g => withdrawChain step g.1 g.2),
      r.chainId = cid ∧ r.success = false := by
  induction grouped with
  | nil => simp at hmem
  | cons g rest ih =>
    rw [List.map_cons, List.mem_cons] at hmem
    rw [List.filterMap_cons]
    rcases hmem with hmem | hmem
    · subst hmem
      rcases hstep : step g.1 with msg | _ | result
      · rw [withdrawChain, hstep]
        exact ⟨_, List.mem_cons_self .., rfl, rfl⟩
      · exact absurd hstep hnf
      · have hcond : (result.success && jsTruthyStr result.supertxHash) = false := by
          cases hb : result.success && jsTruthyStr result.supertxHash
          · rfl
          · obtain ⟨hb1, hb2⟩ := Bool.and_eq_true .. |>.mp hb
            exact absurd ⟨hb1, hb2⟩ (hns result hstep)
        simp only [withdrawChain, hstep]
        rw [if_neg (by rw [hcond]; simp)]
        exact ⟨_, List.mem_cons_self .., rfl, rfl⟩
    · obtain ⟨r, hr, hrc, hrs⟩ := ih hmem
      rcases withdrawChain step g.1 g.2 with _ | entry
      · exact ⟨r, hr, hrc, hrs⟩
      · exact ⟨r, List.mem_cons_of_mem _ hr, hrc, hrs⟩

/-- **C1 (amended).** A chain whose balance scan throws never aborts the
loop: the run's `results` and `success` are exactly those of the run
without that chain (the failed chain is skipped, contributing no entry);
and every chain that reaches the withdraw phase and fails there is recorded
as a failure entry for that chain only. -/
theorem autoWithdraw_chain_isolation (pre post : List (String × ℕ))
    (name : String) (chainId : ℕ) (msg : String)
    (scan : ℕ → Except String (List TokenBalance))
    (step : ℕ → ChainStepOutcome)
    (hfail : scan chainId = .error msg) :
    ((autoWithdrawRun (pre ++ (name, chainId) :: post) scan step).results =
        (autoWithdrawRun (pre ++ post) scan step).results ∧
      (autoWithdrawRun (pre ++ (name, chainId) :: post) scan step).success =
        (autoWithdrawRun (pre ++ post) scan step).success) ∧
    ∀ cid, cid ∈ (groupByChain (filterSpamTokens
        (scanPhase (pre ++ (name, chainId) :: post) scan))).map Prod.fst →
      step cid ≠ .noFunding →
      (∀ result, step cid = .executed result →
        ¬(result.success = true ∧ jsTruthyStr result.supertxHash = true)) →
      ∃ r ∈ (autoWithdrawRun (pre ++ (name, chainId) :: post) scan step).results,
        r.chainId = cid ∧ r.success = false := by
  have hsp : scanPhase (pre ++ (name, chainId) :: post) scan =
      scanPhase (pre ++ post) scan := by
    rw [scanPhase_append, scanPhase_append]
    congr 1
    show scanPhase ((name, chainId) :: post) scan = scanPhase post scan
    show (match scan chainId with
      | .ok balances => balances
      | .error _ => []) ++ scanPhase post scan = scanPhase post scan
    rw [hfail]
    rfl
  constructor
  · rw [autoWithdrawRun, autoWithdrawRun, hsp]
    exact autoWithdrawCore_chains_irrel _ _ _ step
  · intro cid hmem hnf hns
    have hlegit : ¬(filterSpamTokens
        (scanPhase (pre ++ (name, chainId) :: post) scan)).isEmpty = true := by
      intro h
      rw [List.isEmpty_iff] at h
      rw [h] at hmem
      simp [groupByChain, chainIdsAscending, filterSpamTokens] at hmem
    have hall : ¬(scanPhase (pre ++ (name, chainId) :: post) scan).isEmpty
        = true := by
      intro h
      rw [List.isEmpty_iff] at h
      apply hlegit
      rw [h]
      rfl
    rw [autoWithdrawRun, autoWithdrawCore, if_neg hall, if_neg hlegit]
    exact withdrawPhase_failure_recorded step _ cid hmem hnf hns

/-- Witness for `autoWithdraw_chain_isolation`: in the 3-chain scenario with
chain B (`base`) failing its scan, the run's results equal those of the run
over chains A and C alone. -/
theorem autoWithdraw_chain_isolation_witness :
    exScan 8453 = Except.error "network error" ∧
    (autoWithdrawRun ([("ethereum", 1)] ++ ("base", 8453) :: [("optimism", 10)])
        exScan exStep).results =
      (autoWithdrawRun ([("ethereum", 1)] ++ [("optimism", 10)])
        exScan exStep).results :=
  ⟨rfl, (autoWithdraw_chain_isolation [("ethereum", 1)] [("optimism", 10)]
    "base" 8453 "network error" exScan exStep rfl).1.1⟩

/-- Witness for `getQuote_412_distinct` at a concrete 412 response. -/
theorem getQuote_412_distinct_witness :
    getQuote (fun _ => .ok "[0xauth]") (fun _ => .error "unused")
        { status := 412, body := "auth-body" } =
      .error ("Failed to get Biconomy quote: Authorization required: " ++
        "[0xauth]") :=
  (getQuote_412_distinct (fun _ => .ok "[0xauth]") (fun _ => .error "unused")
    { status := 412, body := "auth-body" } "[0xauth]" rfl rfl).1
